import Mathlib

/-!
connectlysendcampaign: batching and dispatch

A shallow embedding of the two dispatchers of the repository and the
properties of their batching cores.

* `Bak0`: `BatchSendCampaign_bak0.go`, the asynchronous variant (one goroutine
  per batch, results handed back over an unbuffered channel).
* `Sync`: `BatchSendCampaign.go`, the variant with one task per record and a
  shared accumulating batch, run here one task at a time in record order.

Go `int` counters (`TotalMessagesSent`, `NumBatches`, `sendCount`, ...) only
count records and batches held in memory, far below `2^63`; they are modelled
as `Nat`. `BatchSize` and `MsgsPerSecond` come from the caller and may be zero
or negative; they are `Int`.
-/

namespace Bak0

/-- A record as `csv.Reader.Read` returns it. The reader skips blank lines and
every other line has at least one field, so `record[0]` always exists. -/
structure Record where
  first : String
  rest : List String
deriving DecidableEq, Repr

/-- The error of a `reader.Read()` call: `io.EOF`, or a failure of the source
(a malformed line, a wrong field count, an I/O error). -/
inductive ReadError where
  | EOF
  | Failure (msg : String)
deriving DecidableEq, Repr

/-- The state of a `csv.Reader`: the results its successive `Read` calls will
return. Once the list is used up the reader is at the end of its file and
returns `io.EOF`. -/
abbrev Reader := List (Except ReadError Record)

/-- The records the successive `Read` calls of a reader return before the first
call that returns an error. -/
def Reader.records : Reader → List Record
  | .ok record :: reader => record :: Reader.records reader
  | _ => []

/-- The input parameters of `BatchSendCampaign`. -/
structure BatchSendCampaignRequest where
  CSVFilePath : String
  APIKey : String
  BatchSize : Int
  TimeoutPerBatch : Int
  MsgsPerSecond : Int
deriving DecidableEq, Repr

/-- The output of `BatchSendCampaign`. -/
structure BatchSendCampaignResponse where
  TotalMessagesSent : Nat := 0
  SuccessfulBatches : Nat := 0
  FailedBatches : Nat := 0
  ExecutionReport : List String := []
deriving DecidableEq, Repr

/-- The result of one simulated API call. -/
structure APIResult where
  Success : Bool
  Details : String
deriving DecidableEq, Repr

/-- What the function takes from outside: the file system (`os.Open` followed
by `csv.NewReader`) and the answer of a `rate.Limiter` with the given limit and
burst to `WaitN(ctx, n)` (`none` is a nil error). -/
structure Env where
  osOpen : String → Except String Reader
  waitN : (limit burst : Int) → (n : Nat) → Option String

/-- The rate limiter built by `rate.NewLimiter(limit, burst)`. -/
structure Limiter where
  limit : Int
  burst : Int
deriving DecidableEq, Repr

/-- `sendBatchAPIRequest`: wait for the limiter, then simulate the send. -/
def sendBatchAPIRequest (env : Env) (apiKey : String) (batch : List String)
    (rateLimiter : Limiter) : APIResult :=
  match env.waitN rateLimiter.limit rateLimiter.burst batch.length with
  | some err => { Success := false, Details := "Rate limiting error: " ++ err }
  | none =>
    let details := "Sending batch of " ++ toString batch.length ++
      " messages to the remote API with API key: " ++ apiKey
    { Success := true, Details := details }

/-- The unbuffered channel `resultChan`. It stores nothing itself: a value
stays with the goroutine that offers it in `resultChan <- apiCallResult` until
a receiver takes it. `senders` are the values offered by the goroutines
launched so far, none of which has been received. -/
structure Chan where
  closed : Bool := false
  senders : List APIResult := []
deriving DecidableEq, Repr

/-- The effect of `close(resultChan)`: the channel is closed, and every send
on it, pending or later, panics with "send on closed channel" instead of
delivering its value. -/
def Chan.close (_ : Chan) : Chan :=
  { closed := true, senders := [] }

/-- The result of one receive of the `range` loop. -/
inductive Recv where
  | value (v : APIResult) (ch : Chan)
  | done
  | blocked
deriving DecidableEq, Repr

/-- One receive on the channel: a closed channel ends the `range` loop, an open
one hands over the value of a waiting sender, and blocks when there is none. -/
def Chan.recv (ch : Chan) : Recv :=
  if ch.closed then .done
  else match ch.senders with
    | [] => .blocked
    | v :: rest => .value v { ch with senders := rest }

/-- The body of the `range` loop: count the outcome and log its details. -/
def collect (response : BatchSendCampaignResponse) (apiResult : APIResult) :
    BatchSendCampaignResponse :=
  let response :=
    if apiResult.Success then
      { response with SuccessfulBatches := response.SuccessfulBatches + 1 }
    else
      { response with FailedBatches := response.FailedBatches + 1 }
  { response with ExecutionReport := response.ExecutionReport ++ [apiResult.Details] }

set_option linter.unusedVariables false in
/-- The loop `for apiResult := range resultChan`. `none` is a run that blocks
forever on an open channel with no sender left. -/
def rangeResultChan (ch : Chan) (response : BatchSendCampaignResponse) :
    Option BatchSendCampaignResponse :=
  match h : ch.recv with
  | .done => some response
  | .blocked => none
  | .value apiResult ch' => rangeResultChan ch' (collect response apiResult)
termination_by ch.senders.length
decreasing_by
  unfold Chan.recv at h
  split at h
  · cases h
  · split at h
    · cases h
    · next w rest hs =>
      injection h with _ h2
      subst h2
      simp [hs]

/-- The variables of the read loop, with two ghost fields: `submitted`, the
batches handed to a `go func` in launch order, and `reads`, the number of
`reader.Read()` calls made. -/
structure LoopState where
  batch : List String := []
  totalMessagesSent : Nat := 0
  resultChan : Chan := {}
  submitted : List (List String) := []
  reads : Nat := 0
deriving DecidableEq, Repr

/-- The statement `go func(apiKey, batch) { ... resultChan <- apiCallResult }`
followed by `totalMessagesSent += len(batch)`. -/
def launch (env : Env) (req : BatchSendCampaignRequest) (rateLimiter : Limiter)
    (batch : List String) (st : LoopState) : LoopState :=
  { st with
    resultChan := { st.resultChan with
      senders := st.resultChan.senders ++ [sendBatchAPIRequest env req.APIKey batch rateLimiter] }
    submitted := st.submitted ++ [batch]
    totalMessagesSent := st.totalMessagesSent + batch.length }

/-- The read loop of `BatchSendCampaign`: read a record, append its first field
to the batch, launch the batch when its length equals `BatchSize`; any error of
`reader.Read()`, `io.EOF` at the end of the file or any other, ends the loop.
The `time.Sleep` after a launch changes no variable and is left out. -/
def readLoop (env : Env) (req : BatchSendCampaignRequest) (rateLimiter : Limiter) :
    Reader → LoopState → LoopState
  | [], st => { st with reads := st.reads + 1 }
  | .error _ :: _, st => { st with reads := st.reads + 1 }
  | .ok record :: reader, st =>
    let st := { st with reads := st.reads + 1 }
    let message := record.first
    let batch := st.batch ++ [message]
    if (batch.length : Int) = req.BatchSize then
      readLoop env req rateLimiter reader { launch env req rateLimiter batch st with batch := [] }
    else
      readLoop env req rateLimiter reader { st with batch := batch }

/-- One run of `BatchSendCampaign`: the response the caller receives (`none`
when the function never returns) and the ghost record of what the run did.
`sendOnClosed` counts the goroutines whose send meets the closed channel; each
of them panics, which ends the process unless the caller is done first. -/
structure Execution where
  response : Option BatchSendCampaignResponse
  submitted : List (List String)
  reads : Nat
  sendOnClosed : Nat
deriving DecidableEq, Repr

/-- The function `BatchSendCampaign` of `BatchSendCampaign_bak0.go`. -/
def BatchSendCampaign (env : Env) (req : BatchSendCampaignRequest) : Execution :=
  let response : BatchSendCampaignResponse := {}
  match env.osOpen req.CSVFilePath with
  | .error err =>
    { response := some { response with
        ExecutionReport := response.ExecutionReport ++ ["Error opening CSV file: " ++ err] }
      submitted := [], reads := 0, sendOnClosed := 0 }
  | .ok reader =>
    let rateLimiter : Limiter := { limit := req.MsgsPerSecond, burst := req.MsgsPerSecond }
    let st := readLoop env req rateLimiter reader {}
    let st := if st.batch.length > 0 then launch env req rateLimiter st.batch st else st
    let resultChan := st.resultChan.close
    { response := (rangeResultChan resultChan response).map
        fun response => { response with TotalMessagesSent := st.totalMessagesSent }
      submitted := st.submitted
      reads := st.reads
      sendOnClosed := st.resultChan.senders.length }

/-- A file system whose every path opens the given reader, with the limiter of
`golang.org/x/time/rate`: `WaitN` fails when `n` exceeds the burst. -/
def scenarioEnv (reader : Reader) : Env :=
  { osOpen := fun _ => .ok reader
    waitN := fun _ burst n =>
      if (n : Int) > burst then some "rate: Wait(n) exceeds the burst of the limiter" else none }

/-- The request of `main`, with the batch size left open. -/
def scenarioRequest (batchSize : Int) : BatchSendCampaignRequest :=
  { CSVFilePath := "sample_connectly_campaign.csv", APIKey := "your-api-key",
    BatchSize := batchSize, TimeoutPerBatch := 2000000000, MsgsPerSecond := 5 }

/-- A record with the single field `message`. -/
def line (message : String) : Except ReadError Record :=
  .ok { first := message, rest := [] }

/-- A file of twelve one-field records. -/
def twelveLines : Reader :=
  [line "m1", line "m2", line "m3", line "m4", line "m5", line "m6",
   line "m7", line "m8", line "m9", line "m10", line "m11", line "m12"]

/-- A file whose second line is malformed and whose third line is fine. -/
def brokenSecondLine : Reader :=
  [line "m1", .error (.Failure "record on line 2: wrong number of fields"), line "m3"]

end Bak0

namespace Sync

/-- The request structure of `BatchSendCampaign`. -/
structure BatchSendCampaignRequest where
  URL : String
  APIKey : String
  Headers : List (String × String)
  BatchSize : Int
  CSVFilePath : String
deriving DecidableEq, Repr

/-- The response structure of `BatchSendCampaign`. -/
structure BatchSendCampaignResponse where
  Message : String
  NumBatches : Nat
deriving DecidableEq, Repr

/-- The `map[string]string` built from one record. -/
abbrev Data := List (String × String)

/-- The HTTP request `sendBatchRequest` builds. -/
structure Request where
  method : String
  url : String
  header : List (String × String)
  body : List Data
deriving DecidableEq, Repr

/-- The bytes allowed in a header name (`validHeaderFieldByte` of `net/textproto`):
letters, digits and the token punctuation, given here by character code. -/
def validHeaderFieldByte (c : Char) : Bool :=
  c.isAlphanum ||
    [33, 35, 36, 37, 38, 39, 42, 43, 45, 46, 94, 95, 96, 124, 126].contains c.toNat

/-- The letter case of a canonical header name: upper case at the start and
after a hyphen, lower case elsewhere. -/
def canonicalCase : Bool → List Char → List Char
  | _, [] => []
  | upper, c :: cs =>
    let c := if upper && c.isLower then c.toUpper
      else if !upper && c.isUpper then c.toLower else c
    c :: canonicalCase (c == '-') cs

/-- The function `textproto.CanonicalMIMEHeaderKey`: a name with a byte that is
not allowed, or with a space, is returned unchanged. -/
def CanonicalMIMEHeaderKey (key : String) : String :=
  if key.toList.all validHeaderFieldByte then
    String.mk (canonicalCase true key.toList)
  else
    key

/-- The statement `req.Header.Set(key, value)`: the value replaces any value
stored under the canonical form of the name. -/
def Request.setHeader (req : Request) (key value : String) : Request :=
  let key := CanonicalMIMEHeaderKey key
  { req with header := req.header.filter (fun kv => kv.1 != key) ++ [(key, value)] }

/-- How the outside world answers one call: `failure` when `json.Marshal`,
`http.NewRequest` or `client.Do` returns an error, else the status code of the
HTTP response. -/
inductive Exchange where
  | failure (err : String)
  | response (StatusCode : Int)
deriving DecidableEq, Repr

/-- The constant `http.StatusUnauthorized`. -/
def StatusUnauthorized : Int := 401

/-- The function `sendBatchRequest`; `none` is a nil error. -/
def sendBatchRequest (client : Request → Exchange) (url apiKey : String)
    (headers : List (String × String)) (data : List Data) : Option String :=
  let req : Request := { method := "POST", url := url, header := [], body := data }
  let req := headers.foldl (fun req kv => req.setHeader kv.1 kv.2) req
  let req := req.setHeader "X-API-Key" apiKey
  let req := req.setHeader "Content-Type" "application/json"
  let req := req.setHeader "x-mock-response-code" "201"
  match client req with
  | .failure err => some err
  | .response StatusCode =>
    if StatusCode ≠ StatusUnauthorized then
      none
    else
      some ("HTTP request failed with status code: " ++ toString StatusCode)

/-- What the file at `CSVFilePath` gives: an error of `os.Open`, of the header
`reader.Read()` or of `reader.ReadAll()`, else the records after the header. -/
inductive CSVFile where
  | openError (err : String)
  | headerError (err : String)
  | readAllError (err : String)
  | records (records : List (List String))
deriving DecidableEq, Repr

/-- What the function takes from outside: the file system, the HTTP client
(the answer to the `k`-th request of the run) and the clock (`time.Now()` after
the `k`-th request). -/
structure Env where
  file : String → CSVFile
  client : Nat → Request → Exchange
  now : Nat → Nat

/-- One call of `sendBatchRequest` made by a run (ghost record): the batch
handed over, the error returned, and whether it is the call for the remaining
batch after `wg.Wait()`. -/
structure Call where
  data : List Data
  err : Option String
  trailing : Bool
deriving DecidableEq, Repr

/-- The variables shared by the per-record tasks, and the ghost list of calls. -/
structure State where
  batchData : List Data := []
  sendTimestamps : List Nat := []
  sendCount : Nat := 0
  response : BatchSendCampaignResponse
  calls : List Call := []
deriving DecidableEq, Repr

/-- The body of the goroutine started for one record, run to its end with no
other task in between. `Except.error` is a panic (index out of range). -/
def task (env : Env) (request : BatchSendCampaignRequest) (record : List String)
    (st : State) : Except String State :=
  match record with
  | r0 :: r1 :: r2 :: r3 :: _ =>
    let data : Data := [("channel_type", r0), ("external_id", r1),
      ("template_name:body_1", r2), ("template_name:body_2", r3)]
    let batchData := st.batchData ++ [data]
    if (batchData.length : Int) ≥ request.BatchSize then
      let k := st.calls.length
      let err := sendBatchRequest (env.client k) request.URL request.APIKey request.Headers batchData
      let calls := st.calls ++ [{ data := batchData, err := err, trailing := false }]
      match err with
      | some _ => .ok { st with batchData := batchData, calls := calls }
      | none =>
        .ok { st with
          sendTimestamps := st.sendTimestamps ++ [env.now k]
          sendCount := st.sendCount + 1
          batchData := []
          response := { st.response with NumBatches := st.response.NumBatches + 1 }
          calls := calls }
    else
      .ok { st with batchData := batchData }
  | _ => .error "index out of range"

/-- The loop `for _, record := range records` in the schedule where each task
runs to its end as soon as it is started, so the tasks run one at a time in
record order. The Go loop lets up to `BatchSize` tasks run at once on the shared
`batchData`; other schedules are not covered here. -/
def workers (env : Env) (request : BatchSendCampaignRequest) :
    List (List String) → State → Except String State
  | [], st => .ok st
  | record :: records, st =>
    match task env request record st with
    | .error msg => .error msg
    | .ok st => workers env request records st

/-- How a run ends. -/
inductive Outcome where
  | returned (response : Option BatchSendCampaignResponse) (err : Option String)
  | panicked (msg : String)
  | deadlocked
deriving DecidableEq, Repr

/-- One run of `BatchSendCampaign`: how it ends, and what it did. -/
structure Execution where
  outcome : Outcome
  calls : List Call := []
  sendTimestamps : List Nat := []
  sendCount : Nat := 0
deriving DecidableEq, Repr

/-- The function `BatchSendCampaign` of `BatchSendCampaign.go`. The channel
`rateLimit` has capacity `BatchSize`: making it panics for a negative size, and
with size zero the first `rateLimit <- struct{}{}` finds no receiver and blocks
for ever; with a positive size and one task at a time it never blocks. -/
def BatchSendCampaign (env : Env) (request : BatchSendCampaignRequest) : Execution :=
  match env.file request.CSVFilePath with
  | .openError err => { outcome := .returned none (some err) }
  | .headerError err => { outcome := .returned none (some err) }
  | .readAllError err => { outcome := .returned none (some err) }
  | .records records =>
    let response : BatchSendCampaignResponse :=
      { Message := "Messages sent successfully", NumBatches := 0 }
    if request.BatchSize < 0 then
      { outcome := .panicked "makechan: size out of range" }
    else if request.BatchSize = 0 ∧ records ≠ [] then
      { outcome := .deadlocked }
    else
      match workers env request records { response := response } with
      | .error msg => { outcome := .panicked msg }
      | .ok st =>
        if st.batchData.length > 0 then
          let k := st.calls.length
          let err := sendBatchRequest (env.client k) request.URL request.APIKey request.Headers
            st.batchData
          let calls := st.calls ++ [{ data := st.batchData, err := err, trailing := true }]
          match err with
          | some err =>
            { outcome := .returned none (some err), calls := calls,
              sendTimestamps := st.sendTimestamps, sendCount := st.sendCount }
          | none =>
            { outcome := .returned
                (some { st.response with NumBatches := st.response.NumBatches + 1 }) none
              calls := calls
              sendTimestamps := st.sendTimestamps ++ [env.now k]
              sendCount := st.sendCount + 1 }
        else
          { outcome := .returned (some st.response) none, calls := st.calls,
            sendTimestamps := st.sendTimestamps, sendCount := st.sendCount }

/-- The request of `main`, with the batch size left open. -/
def scenarioRequest (batchSize : Int) : BatchSendCampaignRequest :=
  { URL := "https://mock.pstmn.io/v1/businesses/send/whatsapp_templated_messages"
    APIKey := "<API Key>", Headers := [("Accept", "application/json")]
    BatchSize := batchSize, CSVFilePath := "sample_connectly_campaign.csv" }

/-- A record of four fields. -/
def row (externalId : String) : List String :=
  ["whatsapp", externalId, "body one", "body two"]

/-- A file system whose every path holds the given records after the header, a
network that answers the `k`-th request with `answer k`, and a clock that shows
`k` after the `k`-th request. -/
def scenarioEnv (records : List (List String)) (answer : Nat → Exchange) : Env :=
  { file := fun _ => .records records
    client := fun k _ => answer k
    now := fun k => k }

/-- A file of twelve four-field records. -/
def twelveRows : List (List String) :=
  [row "1", row "2", row "3", row "4", row "5", row "6",
   row "7", row "8", row "9", row "10", row "11", row "12"]


/-- A network on which only the first request fails, with status 401. -/
def firstUnauthorized : Nat → Exchange :=
  fun k => if k = 0 then .response 401 else .response 201

/-- A network on which every request fails before a response arrives. -/
def unreachable : Nat → Exchange :=
  fun _ => .failure "dial tcp: connection refused"

/-- A network that answers every request with status 201. -/
def created : Nat → Exchange :=
  fun _ => .response 201

end Sync

/-! ## Arithmetic of chunking -/

/-- Rounding a quotient up: the quotient, plus one when there is a remainder. -/
theorem ceilDiv_eq (n b : ℕ) (hb : 1 ≤ b) :
    (n + b - 1) / b = n / b + if n % b = 0 then 0 else 1 := by
  have hdm := Nat.div_add_mod n b
  have hlt := Nat.mod_lt n (show b > 0 by omega)
  by_cases hr : n % b = 0
  · have h1 : n + b - 1 = (b - 1) + b * (n / b) := by omega
    rw [h1, Nat.add_mul_div_left _ _ (by omega : 0 < b), Nat.div_eq_of_lt (by omega)]
    simp [hr]
  · have h1 : n + b - 1 = (n % b - 1) + b * (n / b + 1) := by
      rw [Nat.mul_add]; omega
    rw [h1, Nat.add_mul_div_left _ _ (by omega : 0 < b), Nat.div_eq_of_lt (by omega)]
    simp [hr]

/-- Splitting a quotient and a remainder at an intermediate sum. -/
theorem div_mod_step (a n b : ℕ) (hb : 0 < b) :
    a / b + (a % b + n) / b = (a + n) / b ∧ (a % b + n) % b = (a + n) % b := by
  have h : a + n = (a % b + n) + b * (a / b) := by
    have := Nat.div_add_mod a b
    omega
  rw [h, Nat.add_mul_div_left _ _ hb, Nat.add_mul_mod_self_left]
  exact ⟨Nat.add_comm _ _, rfl⟩

/-! ## The asynchronous variant -/

namespace Bak0

/-- After `close` the `range` loop ends at once and receives nothing. -/
theorem rangeResultChan_close (ch : Chan) (response : BatchSendCampaignResponse) :
    rangeResultChan ch.close response = some response := by
  rw [rangeResultChan]
  simp [Chan.close, Chan.recv]

/-- The batches launched so far, concatenated, then the accumulating batch, are
the first fields of the records read so far, in order. -/
theorem readLoop_flatten (env : Env) (req : BatchSendCampaignRequest) (lim : Limiter) :
    ∀ (reader : Reader) (st : LoopState),
      (readLoop env req lim reader st).submitted.flatten ++ (readLoop env req lim reader st).batch
        = st.submitted.flatten ++ st.batch ++ (Reader.records reader).map Record.first := by
  intro reader
  induction reader with
  | nil => intro st; simp [readLoop, Reader.records]
  | cons r reader ih =>
    intro st
    cases r with
    | error e => simp [readLoop, Reader.records]
    | ok record =>
      simp only [readLoop, Reader.records]
      split
      · rw [ih]; simp [launch]
      · rw [ih]; simp

/-- From a batch that is not yet full, the read loop launches a batch of `b`
records at every `b`-th record and is left with the remainder. -/
theorem readLoop_sizes (env : Env) (req : BatchSendCampaignRequest) (lim : Limiter) (b : ℕ)
    (hb : req.BatchSize = (b : Int)) (hpos : 1 ≤ b) :
    ∀ (reader : Reader) (st : LoopState), st.batch.length < b →
      (readLoop env req lim reader st).submitted.map List.length
        = st.submitted.map List.length
            ++ List.replicate ((st.batch.length + (Reader.records reader).length) / b) b
      ∧ (readLoop env req lim reader st).batch.length
        = (st.batch.length + (Reader.records reader).length) % b := by
  intro reader
  induction reader with
  | nil =>
    intro st hlt
    simp [readLoop, Reader.records, Nat.div_eq_of_lt hlt, Nat.mod_eq_of_lt hlt]
  | cons r reader ih =>
    intro st hlt
    cases r with
    | error e => simp [readLoop, Reader.records, Nat.div_eq_of_lt hlt, Nat.mod_eq_of_lt hlt]
    | ok record =>
      simp only [readLoop, Reader.records, hb]
      split
      · next heq =>
        have hlen : st.batch.length + 1 = b := by
          have : ((st.batch ++ [record.first]).length : Int) = (st.batch.length + 1 : ℕ) := by simp
          rw [this] at heq
          exact_mod_cast heq
        obtain ⟨h1, h2⟩ := ih { launch env req lim (st.batch ++ [record.first])
          { st with reads := st.reads + 1 } with batch := [] } (by simp; omega)
        rw [h1, h2]
        have harith : st.batch.length + ((Reader.records reader).length + 1)
            = (Reader.records reader).length + b := by omega
        simp only [List.length_cons, List.length_nil, harith, Nat.zero_add,
          Nat.add_div_right _ (by omega : 0 < b), Nat.add_mod_right, List.replicate_succ]
        simp [launch, hlen]
      · next hne =>
        have hlen : st.batch.length + 1 < b := by
          have : ((st.batch ++ [record.first]).length : Int) = (st.batch.length + 1 : ℕ) := by simp
          rw [this] at hne
          have : st.batch.length + 1 ≠ b := by exact_mod_cast hne
          omega
        obtain ⟨h1, h2⟩ := ih { st with reads := st.reads + 1, batch := st.batch ++ [record.first] }
          (by simpa using hlen)
        rw [h1, h2]
        simp [Nat.add_assoc, Nat.add_comm 1]

/-- With `BatchSize ≤ 0` the read loop never launches a batch: every record
read is added to the accumulating batch. -/
theorem readLoop_nonpos (env : Env) (req : BatchSendCampaignRequest) (lim : Limiter)
    (hb : req.BatchSize ≤ 0) :
    ∀ (reader : Reader) (st : LoopState),
      readLoop env req lim reader st =
        { st with
          batch := st.batch ++ (Reader.records reader).map Record.first
          reads := st.reads + (Reader.records reader).length + 1 } := by
  intro reader
  induction reader with
  | nil => intro st; simp [readLoop, Reader.records]
  | cons r reader ih =>
    intro st
    cases r with
    | error e => simp [readLoop, Reader.records]
    | ok record =>
      simp only [readLoop, Reader.records]
      split
      · next heq =>
        have : ((st.batch ++ [record.first]).length : Int) = (st.batch.length + 1 : ℕ) := by simp
        rw [this] at heq
        omega
      · rw [ih]; simp; omega

/-- The response of a run whose file opens: no outcome is counted. -/
theorem response_of_open (env : Env) (req : BatchSendCampaignRequest) (reader : Reader)
    (hopen : env.osOpen req.CSVFilePath = .ok reader) :
    ∃ total, (BatchSendCampaign env req).response =
      some { TotalMessagesSent := total, SuccessfulBatches := 0, FailedBatches := 0,
             ExecutionReport := [] } := by
  simp only [BatchSendCampaign, hopen, rangeResultChan_close]
  exact ⟨_, rfl⟩

/-- The batches a run submits: those launched in the loop, then the remaining
batch when it is not empty. -/
theorem submitted_of_open (env : Env) (req : BatchSendCampaignRequest) (reader : Reader)
    (hopen : env.osOpen req.CSVFilePath = .ok reader) :
    (BatchSendCampaign env req).submitted =
      (readLoop env req ⟨req.MsgsPerSecond, req.MsgsPerSecond⟩ reader {}).submitted ++
        (if (readLoop env req ⟨req.MsgsPerSecond, req.MsgsPerSecond⟩ reader {}).batch = [] then []
         else [(readLoop env req ⟨req.MsgsPerSecond, req.MsgsPerSecond⟩ reader {}).batch]) := by
  simp only [BatchSendCampaign, hopen]
  by_cases h : (readLoop env req ⟨req.MsgsPerSecond, req.MsgsPerSecond⟩ reader {}).batch = []
  · simp [h]
  · have : (readLoop env req ⟨req.MsgsPerSecond, req.MsgsPerSecond⟩ reader {}).batch.length > 0 :=
      List.length_pos.mpr h
    simp [h, this, launch]

/-- The sizes of the batches a run submits, for a `BatchSize` `b ≥ 1`: `b`
records each, then the `n mod b` remaining ones when `b` does not divide `n`. -/
theorem submitted_sizes (env : Env) (req : BatchSendCampaignRequest) (reader : Reader)
    (b : ℕ) (hopen : env.osOpen req.CSVFilePath = .ok reader)
    (hb : req.BatchSize = (b : Int)) (hpos : 1 ≤ b) :
    (BatchSendCampaign env req).submitted.map List.length =
      List.replicate ((Reader.records reader).length / b) b ++
        (if (Reader.records reader).length % b = 0 then []
         else [(Reader.records reader).length % b]) := by
  obtain ⟨h1, h2⟩ := readLoop_sizes env req ⟨req.MsgsPerSecond, req.MsgsPerSecond⟩ b hb hpos
    reader {} (by simpa using hpos)
  simp only [List.map_nil, List.nil_append, List.length_nil, Nat.zero_add] at h1 h2
  rw [submitted_of_open env req reader hopen, List.map_append, h1]
  congr 1
  by_cases hz : (Reader.records reader).length % b = 0
  · have : (readLoop env req ⟨req.MsgsPerSecond, req.MsgsPerSecond⟩ reader {}).batch = [] :=
      List.length_eq_zero.mp (by rw [h2, hz])
    simp [hz, this]
  · have : (readLoop env req ⟨req.MsgsPerSecond, req.MsgsPerSecond⟩ reader {}).batch ≠ [] := by
      intro hnil
      rw [hnil] at h2
      exact hz (by simpa using h2.symm)
    simp [hz, this, h2]

/-- C1: in the async variant, for a source that yields `n` records and a
`BatchSize` `b ≥ 1`, the number of batches submitted (launched in the read loop
plus the remaining one) is `ceil(n/b)`, which is 0 when `n = 0`; the batches
have `b` records each, except a last one of `n mod b` records when `b` does not
divide `n`. -/
theorem submitted_count_eq_ceil (env : Env) (req : BatchSendCampaignRequest) (reader : Reader)
    (b : ℕ) (hopen : env.osOpen req.CSVFilePath = .ok reader)
    (hb : req.BatchSize = (b : Int)) (hpos : 1 ≤ b) :
    (BatchSendCampaign env req).submitted.length = ((Reader.records reader).length + b - 1) / b
    ∧ ((Reader.records reader).length = 0 → (BatchSendCampaign env req).submitted.length = 0)
    ∧ (BatchSendCampaign env req).submitted.map List.length =
        List.replicate ((Reader.records reader).length / b) b ++
          (if (Reader.records reader).length % b = 0 then []
           else [(Reader.records reader).length % b]) := by
  have hmap := submitted_sizes env req reader b hopen hb hpos
  have hlen := congrArg List.length hmap
  rw [List.length_map] at hlen
  have hcount : (BatchSendCampaign env req).submitted.length
      = ((Reader.records reader).length + b - 1) / b := by
    rw [hlen, ceilDiv_eq _ _ hpos]
    by_cases hz : (Reader.records reader).length % b = 0 <;> simp [hz]
  refine ⟨hcount, ?_, hmap⟩
  intro hzero
  rw [hcount, hzero, Nat.zero_add]
  exact Nat.div_eq_of_lt (by omega)

/-- The twelve-record scenario of C1: batch size 5 gives three batches, of sizes
5, 5 and 2. -/
theorem submitted_count_eq_ceil_witness :
    (scenarioEnv twelveLines).osOpen (scenarioRequest 5).CSVFilePath = .ok twelveLines
    ∧ (scenarioRequest 5).BatchSize = ((5 : ℕ) : Int) ∧ 1 ≤ 5
    ∧ (BatchSendCampaign (scenarioEnv twelveLines) (scenarioRequest 5)).submitted.length = 3
    ∧ (BatchSendCampaign (scenarioEnv twelveLines) (scenarioRequest 5)).submitted.map List.length
        = [5, 5, 2] :=
  ⟨rfl, rfl, by decide,
    (submitted_count_eq_ceil (scenarioEnv twelveLines) (scenarioRequest 5) twelveLines 5
      rfl rfl (by decide)).1,
    (submitted_count_eq_ceil (scenarioEnv twelveLines) (scenarioRequest 5) twelveLines 5
      rfl rfl (by decide)).2.2⟩

/-- C2: in the async variant, for every source and every `BatchSize` `b ≥ 1`,
the batches submitted, concatenated in submission order, are exactly the first
fields of the records in source order (so every record is in exactly one batch,
none is lost, repeated or moved, and the remaining records after the last full
batch are submitted too); no submitted batch is empty. -/
theorem submitted_flatten_eq_records (env : Env) (req : BatchSendCampaignRequest)
    (reader : Reader) (b : ℕ) (hopen : env.osOpen req.CSVFilePath = .ok reader)
    (hb : req.BatchSize = (b : Int)) (hpos : 1 ≤ b) :
    (BatchSendCampaign env req).submitted.flatten = (Reader.records reader).map Record.first
    ∧ [] ∉ (BatchSendCampaign env req).submitted := by
  constructor
  · have h := readLoop_flatten env req ⟨req.MsgsPerSecond, req.MsgsPerSecond⟩ reader {}
    rw [submitted_of_open env req reader hopen, List.flatten_append]
    simp only [List.flatten_nil, List.nil_append] at h
    rw [← h]
    congr 1
    split
    · next hnil => simp [hnil]
    · simp
  · intro hmem
    have hzero : 0 ∈ (BatchSendCampaign env req).submitted.map List.length :=
      List.mem_map.mpr ⟨[], hmem, rfl⟩
    rw [submitted_sizes env req reader b hopen hb hpos, List.mem_append] at hzero
    rcases hzero with h | h
    · have := (List.mem_replicate.mp h).2
      omega
    · split at h
      · simp at h
      · next hne =>
        rw [List.mem_singleton] at h
        exact hne h.symm

/-- The twelve-record scenario of C2: the three batches hold the twelve
messages in file order. -/
theorem submitted_flatten_eq_records_witness :
    (scenarioEnv twelveLines).osOpen (scenarioRequest 5).CSVFilePath = .ok twelveLines
    ∧ (scenarioRequest 5).BatchSize = ((5 : ℕ) : Int) ∧ 1 ≤ 5
    ∧ (BatchSendCampaign (scenarioEnv twelveLines) (scenarioRequest 5)).submitted.flatten
        = ["m1", "m2", "m3", "m4", "m5", "m6", "m7", "m8", "m9", "m10", "m11", "m12"] :=
  ⟨rfl, rfl, by decide,
    (submitted_flatten_eq_records (scenarioEnv twelveLines) (scenarioRequest 5) twelveLines 5
      rfl rfl (by decide)).1⟩

/-- C3 at a one-record file with batch size 1: one batch is submitted, its
goroutine meets the closed channel, and the response counts no outcome, neither
successful nor failed; indeed no run ever counts an outcome, since the channel
is closed before the first receive. -/
theorem one_batch_no_outcome :
    (BatchSendCampaign (scenarioEnv [line "m1"]) (scenarioRequest 1)).submitted = [["m1"]]
    ∧ (BatchSendCampaign (scenarioEnv [line "m1"]) (scenarioRequest 1)).sendOnClosed = 1
    ∧ (BatchSendCampaign (scenarioEnv [line "m1"]) (scenarioRequest 1)).response =
        some { TotalMessagesSent := 1, SuccessfulBatches := 0, FailedBatches := 0,
               ExecutionReport := [] }
    ∧ ∀ (env : Env) (req : BatchSendCampaignRequest), ∃ response,
        (BatchSendCampaign env req).response = some response
        ∧ response.SuccessfulBatches + response.FailedBatches = 0 := by
  refine ⟨by decide, by decide, ?_, ?_⟩
  · simp only [BatchSendCampaign, scenarioEnv, rangeResultChan_close]
    decide
  · intro env req
    cases hopen : env.osOpen req.CSVFilePath with
    | error err =>
      refine ⟨{ ExecutionReport := [] ++ ["Error opening CSV file: " ++ err] }, ?_, rfl⟩
      simp only [BatchSendCampaign, hopen]
    | ok reader =>
      obtain ⟨total, h⟩ := response_of_open env req reader hopen
      exact ⟨_, h, rfl⟩

/-- C4 fails at batch size 0 on a three-record file: the three records are
read and submitted as one batch, and the response reports no error. -/
theorem zero_batch_size_not_rejected :
    (scenarioRequest 0).BatchSize ≤ 0
    ∧ (BatchSendCampaign (scenarioEnv [line "m1", line "m2", line "m3"])
        (scenarioRequest 0)).reads = 4
    ∧ (BatchSendCampaign (scenarioEnv [line "m1", line "m2", line "m3"])
        (scenarioRequest 0)).submitted = [["m1", "m2", "m3"]]
    ∧ (BatchSendCampaign (scenarioEnv [line "m1", line "m2", line "m3"])
        (scenarioRequest 0)).response =
        some { TotalMessagesSent := 3, SuccessfulBatches := 0, FailedBatches := 0,
               ExecutionReport := [] } := by
  refine ⟨by decide, by decide, by decide, ?_⟩
  simp only [BatchSendCampaign, scenarioEnv, rangeResultChan_close]
  decide

/-- C4 as amended: in the async variant a `BatchSize ≤ 0` is not rejected. The
run reads every record (one `Read` call more than there are records), launches
no batch in the read loop, and submits all the records as one batch after the
loop when there is at least one record (no batch when there is none); every
response it returns has `TotalMessagesSent = n`. -/
theorem nonpos_batch_size_single_batch (env : Env) (req : BatchSendCampaignRequest)
    (reader : Reader) (hopen : env.osOpen req.CSVFilePath = .ok reader)
    (hb : req.BatchSize ≤ 0) :
    (BatchSendCampaign env req).reads = (Reader.records reader).length + 1
    ∧ (readLoop env req ⟨req.MsgsPerSecond, req.MsgsPerSecond⟩ reader {}).submitted = []
    ∧ (BatchSendCampaign env req).submitted =
        (if Reader.records reader = [] then []
         else [(Reader.records reader).map Record.first])
    ∧ ∀ response, (BatchSendCampaign env req).response = some response →
        response.TotalMessagesSent = (Reader.records reader).length := by
  have hloop := readLoop_nonpos env req ⟨req.MsgsPerSecond, req.MsgsPerSecond⟩ hb reader {}
  refine ⟨?_, ?_, ?_, ?_⟩
  · simp only [BatchSendCampaign, hopen, hloop]
    split <;> simp [launch]
  · rw [hloop]
  · rw [submitted_of_open env req reader hopen, hloop]
    simp
  · intro response hresp
    simp only [BatchSendCampaign, hopen, hloop, rangeResultChan_close, Option.map_some',
      Option.some.injEq] at hresp
    rw [← hresp]
    by_cases hr : Reader.records reader = [] <;> simp [hr, launch, List.length_pos]

/-- The amended C4 at batch size `-1` on a three-record file. -/
theorem nonpos_batch_size_single_batch_witness :
    (scenarioEnv [line "m1", line "m2", line "m3"]).osOpen (scenarioRequest (-1)).CSVFilePath
      = .ok [line "m1", line "m2", line "m3"]
    ∧ (scenarioRequest (-1)).BatchSize ≤ 0
    ∧ (BatchSendCampaign (scenarioEnv [line "m1", line "m2", line "m3"])
        (scenarioRequest (-1))).submitted = [["m1", "m2", "m3"]] :=
  ⟨rfl, by decide,
    (nonpos_batch_size_single_batch (scenarioEnv [line "m1", line "m2", line "m3"])
      (scenarioRequest (-1)) [line "m1", line "m2", line "m3"] rfl (by decide)).2.2.1⟩

/-- C9 at a file whose second line is malformed, batch size 5: when the read
fails no batch has been launched, the run then submits the batch holding the
first record, and what it returns is what it returns for the one-line file that
simply ends there; the line after the malformed one is never read. -/
theorem read_failure_taken_as_end :
    (readLoop (scenarioEnv brokenSecondLine) (scenarioRequest 5) ⟨5, 5⟩ brokenSecondLine
        {}).submitted = []
    ∧ (BatchSendCampaign (scenarioEnv brokenSecondLine) (scenarioRequest 5)).submitted = [["m1"]]
    ∧ (BatchSendCampaign (scenarioEnv brokenSecondLine) (scenarioRequest 5)).reads = 2
    ∧ (BatchSendCampaign (scenarioEnv brokenSecondLine) (scenarioRequest 5)).response
        = (BatchSendCampaign (scenarioEnv [line "m1"]) (scenarioRequest 5)).response
    ∧ (BatchSendCampaign (scenarioEnv brokenSecondLine) (scenarioRequest 5)).response
        = some { TotalMessagesSent := 1, SuccessfulBatches := 0, FailedBatches := 0,
                 ExecutionReport := [] } := by
  refine ⟨by decide, by decide, by decide, ?_, ?_⟩
  · simp only [BatchSendCampaign, scenarioEnv, rangeResultChan_close]
    decide
  · simp only [BatchSendCampaign, scenarioEnv, rangeResultChan_close]
    decide

end Bak0

/-! ## The variant with one task per record -/

namespace Sync

/-- A record of at least four fields has the shape the task reads. -/
theorem four_fields {record : List String} (h : 4 ≤ record.length) :
    ∃ r0 r1 r2 r3 rest, record = r0 :: r1 :: r2 :: r3 :: rest := by
  match record, h with
  | r0 :: r1 :: r2 :: r3 :: rest, _ => exact ⟨r0, r1, r2, r3, rest, rfl⟩

/-- One task of a run whose sends all succeed, from a batch that is not yet
full. -/
theorem task_success (env : Env) (request : BatchSendCampaignRequest) (b : ℕ)
    (hb : request.BatchSize = (b : Int))
    (hsend : ∀ k data,
      sendBatchRequest (env.client k) request.URL request.APIKey request.Headers data = none)
    (record : List String) (st : State) (hfields : 4 ≤ record.length)
    (hlt : st.batchData.length < b) :
    ∃ st', task env request record st = .ok st'
      ∧ st'.batchData.length = (st.batchData.length + 1) % b
      ∧ st'.response = { st.response with
          NumBatches := st.response.NumBatches + (st.batchData.length + 1) / b }
      ∧ st'.calls.length = st.calls.length + (st.batchData.length + 1) / b
      ∧ st'.sendTimestamps.length = st.sendTimestamps.length + (st.batchData.length + 1) / b
      ∧ st'.sendCount = st.sendCount + (st.batchData.length + 1) / b := by
  obtain ⟨r0, r1, r2, r3, rest, hrec⟩ := four_fields hfields
  subst hrec
  by_cases hfull : st.batchData.length + 1 = b
  · have hge : ((st.batchData.length : Int) + 1) ≥ request.BatchSize := by rw [hb]; omega
    have hpos : 0 < b := by omega
    simp only [task, List.length_append, List.length_singleton, Nat.cast_add,
      Nat.cast_one, hge, if_true, hsend]
    refine ⟨_, rfl, ?_, ?_, ?_, ?_, ?_⟩ <;> simp [hfull, Nat.div_self hpos]
  · have hlt' : ¬ ((st.batchData.length : Int) + 1) ≥ request.BatchSize := by rw [hb]; omega
    have hsmall : st.batchData.length + 1 < b := by omega
    simp only [task, List.length_append, List.length_singleton, Nat.cast_add,
      Nat.cast_one, hlt', if_false]
    refine ⟨_, rfl, ?_, ?_, ?_, ?_, ?_⟩ <;>
      simp [Nat.div_eq_of_lt hsmall, Nat.mod_eq_of_lt hsmall]

/-- The workers of a run whose sends all succeed, from a state whose batch is
not yet full: how many batches they send and how many records they leave. -/
theorem workers_success (env : Env) (request : BatchSendCampaignRequest) (b : ℕ)
    (hb : request.BatchSize = (b : Int))
    (hsend : ∀ k data,
      sendBatchRequest (env.client k) request.URL request.APIKey request.Headers data = none) :
    ∀ (records : List (List String)) (st : State),
      (∀ record ∈ records, 4 ≤ record.length) → st.batchData.length < b →
      ∃ st', workers env request records st = .ok st'
        ∧ st'.batchData.length = (st.batchData.length + records.length) % b
        ∧ st'.response = { st.response with
            NumBatches := st.response.NumBatches + (st.batchData.length + records.length) / b }
        ∧ st'.calls.length = st.calls.length + (st.batchData.length + records.length) / b
        ∧ st'.sendTimestamps.length
            = st.sendTimestamps.length + (st.batchData.length + records.length) / b
        ∧ st'.sendCount = st.sendCount + (st.batchData.length + records.length) / b := by
  intro records
  induction records with
  | nil =>
    intro st _ hlt
    exact ⟨st, rfl, by simp [Nat.mod_eq_of_lt hlt], by simp [Nat.div_eq_of_lt hlt],
      by simp [Nat.div_eq_of_lt hlt], by simp [Nat.div_eq_of_lt hlt],
      by simp [Nat.div_eq_of_lt hlt]⟩
  | cons record records ih =>
    intro st hfields hlt
    have hpos : 0 < b := by omega
    obtain ⟨st1, t0, t1, t2, t3, t4, t5⟩ := task_success env request b hb hsend record st
      (hfields record (List.mem_cons_self _ _)) hlt
    obtain ⟨st', h0, h1, h2, h3, h4, h5⟩ := ih st1
      (fun r hr => hfields r (List.mem_cons_of_mem _ hr)) (by rw [t1]; exact Nat.mod_lt _ hpos)
    obtain ⟨hdiv, hmod⟩ := div_mod_step (st.batchData.length + 1) records.length b hpos
    have harith : st.batchData.length + (records.length + 1)
        = st.batchData.length + 1 + records.length := by omega
    refine ⟨st', ?_, ?_, ?_, ?_, ?_, ?_⟩
    · simp only [workers, t0]; exact h0
    · rw [h1, t1, List.length_cons, harith, hmod]
    · rw [h2, t2, t1, List.length_cons, harith, ← hdiv]; simp [Nat.add_assoc]
    · rw [h3, t3, t1, List.length_cons, harith, ← hdiv, Nat.add_assoc]
    · rw [h4, t4, t1, List.length_cons, harith, ← hdiv, Nat.add_assoc]
    · rw [h5, t5, t1, List.length_cons, harith, ← hdiv, Nat.add_assoc]

/-- C10: in `BatchSendCampaign.go`, for `n` records of at least four fields and
a `BatchSize` `b ≥ 1`, when every `sendBatchRequest` call succeeds and the
tasks run one at a time in record order, the run returns a nil error and a
response whose `NumBatches` is `ceil(n/b)`, which is also the number of
`sendBatchRequest` calls, of recorded timestamps, and the send count. -/
theorem numBatches_eq_ceil (env : Env) (request : BatchSendCampaignRequest)
    (records : List (List String)) (b : ℕ)
    (hfile : env.file request.CSVFilePath = .records records)
    (hb : request.BatchSize = (b : Int)) (hpos : 1 ≤ b)
    (hfields : ∀ record ∈ records, 4 ≤ record.length)
    (hsend : ∀ k data,
      sendBatchRequest (env.client k) request.URL request.APIKey request.Headers data = none) :
    (BatchSendCampaign env request).outcome =
        .returned (some { Message := "Messages sent successfully"
                          NumBatches := (records.length + b - 1) / b }) none
    ∧ (BatchSendCampaign env request).calls.length = (records.length + b - 1) / b
    ∧ (BatchSendCampaign env request).sendTimestamps.length = (records.length + b - 1) / b
    ∧ (BatchSendCampaign env request).sendCount = (records.length + b - 1) / b := by
  obtain ⟨st', h0, h1, h2, h3, h4, h5⟩ := workers_success env request b hb hsend records
    { response := { Message := "Messages sent successfully", NumBatches := 0 } } hfields
    (by simpa using hpos)
  simp only [List.length_nil, Nat.zero_add] at h1 h2 h3 h4 h5
  have hneg : ¬ request.BatchSize < 0 := by rw [hb]; omega
  have hzero : ¬ (request.BatchSize = 0 ∧ records ≠ []) := by rw [hb]; omega
  have hceil := ceilDiv_eq records.length b hpos
  simp only [BatchSendCampaign, hfile, hneg, hzero, if_false, h0]
  by_cases hz : records.length % b = 0
  · have hlen : ¬ st'.batchData.length > 0 := by rw [h1, hz]; omega
    simp only [hz, if_true, Nat.add_zero] at hceil
    simp [hlen, hceil, h2, h3, h4, h5]
  · have hlen : st'.batchData.length > 0 := by rw [h1]; omega
    simp only [hz, if_false] at hceil
    simp [hlen, hsend, hceil, h2, h3, h4, h5]

/-- The twelve-record scenario of C10: batch size 5 on a network that answers
201 gives three batches. -/
theorem numBatches_eq_ceil_witness :
    (scenarioEnv twelveRows created).file (scenarioRequest 5).CSVFilePath = .records twelveRows
    ∧ (scenarioRequest 5).BatchSize = ((5 : ℕ) : Int) ∧ 1 ≤ 5
    ∧ (∀ record ∈ twelveRows, 4 ≤ record.length)
    ∧ (BatchSendCampaign (scenarioEnv twelveRows created) (scenarioRequest 5)).outcome =
        .returned (some { Message := "Messages sent successfully", NumBatches := 3 }) none
    ∧ (BatchSendCampaign (scenarioEnv twelveRows created) (scenarioRequest 5)).calls.length = 3 :=
  ⟨rfl, rfl, by decide, by decide,
    (numBatches_eq_ceil (scenarioEnv twelveRows created) (scenarioRequest 5) twelveRows 5
      rfl rfl (by decide) (by decide) (fun _ _ => rfl)).1,
    (numBatches_eq_ceil (scenarioEnv twelveRows created) (scenarioRequest 5) twelveRows 5
      rfl rfl (by decide) (by decide) (fun _ _ => rfl)).2.1⟩

/-- C5 at status 500: `sendBatchRequest` returns a nil error for a response
whose status code is 500. -/
theorem server_error_is_nil (url apiKey : String) (headers : List (String × String))
    (data : List Data) :
    sendBatchRequest (fun _ => .response 500) url apiKey headers data = none := by
  simp [sendBatchRequest, StatusUnauthorized]

/-- C6 fails at 401 and at 200: `sendBatchRequest` returns an error for status
401 and a nil error for status 200. -/
theorem unauthorized_is_error_ok_is_nil :
    sendBatchRequest (fun _ => .response 401) "url" "key" [] []
      = some "HTTP request failed with status code: 401"
    ∧ sendBatchRequest (fun _ => .response 200) "url" "key" [] [] = none := by
  constructor
  · simp [sendBatchRequest, StatusUnauthorized]; decide
  · simp [sendBatchRequest, StatusUnauthorized]

/-- C6 as amended: the status-code check of `sendBatchRequest` takes 401 as a
failure and every 2xx status as a success: it returns a non-nil error when the
status is 401 and nil when the status is in 200..299. -/
theorem status_check (url apiKey : String) (headers : List (String × String))
    (data : List Data) (StatusCode : Int) :
    (StatusCode = 401 →
      sendBatchRequest (fun _ => .response StatusCode) url apiKey headers data ≠ none)
    ∧ (200 ≤ StatusCode ∧ StatusCode ≤ 299 →
      sendBatchRequest (fun _ => .response StatusCode) url apiKey headers data = none) := by
  constructor
  · intro h
    simp [sendBatchRequest, StatusUnauthorized, h]
  · intro h
    have : StatusCode ≠ 401 := by omega
    simp [sendBatchRequest, StatusUnauthorized, this]

/-- The amended C6 at status 401 and at status 201. -/
theorem status_check_witness :
    sendBatchRequest (fun _ => .response 401) "url" "key" [] [] ≠ none
    ∧ (200 : Int) ≤ 201 ∧ (201 : Int) ≤ 299
    ∧ sendBatchRequest (fun _ => .response 201) "url" "key" [] [] = none :=
  ⟨(status_check "url" "key" [] [] 401).1 rfl, by decide, by decide,
    (status_check "url" "key" [] [] 201).2 ⟨by decide, by decide⟩⟩

/-- A task given a record of at least four fields ends without a panic, and the
call it may make is not the call for the remaining batch. -/
theorem task_ok (env : Env) (request : BatchSendCampaignRequest) (record : List String)
    (st : State) (hfields : 4 ≤ record.length) (hcalls : ∀ c ∈ st.calls, c.trailing = false) :
    ∃ st', task env request record st = .ok st' ∧ ∀ c ∈ st'.calls, c.trailing = false := by
  obtain ⟨r0, r1, r2, r3, rest, hrec⟩ := four_fields hfields
  subst hrec
  simp only [task]
  split
  · split
    · refine ⟨_, rfl, ?_⟩
      intro c hc
      simp only [List.mem_append, List.mem_singleton] at hc
      rcases hc with hc | hc
      · exact hcalls c hc
      · rw [hc]
    · refine ⟨_, rfl, ?_⟩
      intro c hc
      simp only [List.mem_append, List.mem_singleton] at hc
      rcases hc with hc | hc
      · exact hcalls c hc
      · rw [hc]
  · exact ⟨_, rfl, hcalls⟩

/-- The workers given records of at least four fields end without a panic,
whatever the sends return, and none of their calls is the call for the
remaining batch. -/
theorem workers_ok (env : Env) (request : BatchSendCampaignRequest) :
    ∀ (records : List (List String)) (st : State),
      (∀ record ∈ records, 4 ≤ record.length) → (∀ c ∈ st.calls, c.trailing = false) →
      ∃ st', workers env request records st = .ok st' ∧ ∀ c ∈ st'.calls, c.trailing = false := by
  intro records
  induction records with
  | nil => intro st _ hcalls; exact ⟨st, rfl, hcalls⟩
  | cons record records ih =>
    intro st hfields hcalls
    obtain ⟨st1, t0, t1⟩ := task_ok env request record st
      (hfields record (List.mem_cons_self _ _)) hcalls
    obtain ⟨st', h0, h1⟩ := ih st1 (fun r hr => hfields r (List.mem_cons_of_mem _ hr)) t1
    exact ⟨st', by simp only [workers, t0]; exact h0, h1⟩

/-- C7 fails at a one-record file with batch size 2 on an unreachable network:
the only send is the one for the remaining batch, it fails, and the run returns
a nil response with that error. -/
theorem trailing_failure_escalates :
    1 ≤ (scenarioRequest 2).BatchSize
    ∧ (BatchSendCampaign (scenarioEnv [row "1"] unreachable) (scenarioRequest 2)).outcome
        = .returned none (some "dial tcp: connection refused")
    ∧ (BatchSendCampaign (scenarioEnv [row "1"] unreachable) (scenarioRequest 2)).calls.map
        (fun c => (c.data.length, c.trailing)) = [(1, true)] := by
  decide

/-- C7 as amended: in `BatchSendCampaign.go`, for records of at least four
fields and a `BatchSize` `b ≥ 1`, with the tasks run one at a time in record
order and every `sendBatchRequest` call returning, the run returns either a
response and a nil error or a nil response and an error. Its calls of
`sendBatchRequest` are those of the worker loop, followed by at most one call
for the remaining batch after all workers have finished; the error the run
returns is the error of that last call (nil when there is no such call), and
no call of the worker loop is that call. -/
theorem only_trailing_failure_escalates (env : Env) (request : BatchSendCampaignRequest)
    (records : List (List String)) (b : ℕ)
    (hfile : env.file request.CSVFilePath = .records records)
    (hb : request.BatchSize = (b : Int)) (hpos : 1 ≤ b)
    (hfields : ∀ record ∈ records, 4 ≤ record.length) :
    ∃ response err loopCalls,
      (BatchSendCampaign env request).outcome = .returned response err
      ∧ (err = none ↔ response ≠ none)
      ∧ (∀ c ∈ loopCalls, c.trailing = false)
      ∧ (((BatchSendCampaign env request).calls = loopCalls ∧ err = none)
          ∨ ∃ c, (BatchSendCampaign env request).calls = loopCalls ++ [c]
              ∧ c.trailing = true ∧ err = c.err)
      ∧ ∀ e, err = some e ↔
          ∃ c ∈ (BatchSendCampaign env request).calls, c.trailing = true ∧ c.err = some e := by
  obtain ⟨st', h0, h1⟩ := workers_ok env request records
    { response := { Message := "Messages sent successfully", NumBatches := 0 } } hfields
    (by simp)
  have hneg : ¬ request.BatchSize < 0 := by rw [hb]; omega
  have hzero : ¬ (request.BatchSize = 0 ∧ records ≠ []) := by rw [hb]; omega
  simp only [BatchSendCampaign, hfile, hneg, hzero, if_false, h0]
  split
  · split
    · next e he =>
      refine ⟨none, some e, st'.calls, rfl, by simp, h1, Or.inr ⟨_, rfl, rfl, he.symm⟩, ?_⟩
      intro e'
      constructor
      · intro h
        refine ⟨_, List.mem_append_right _ (List.mem_singleton_self _), rfl, ?_⟩
        rw [he]; exact h
      · rintro ⟨c, hc, htr, herr⟩
        simp only [List.mem_append, List.mem_singleton] at hc
        rcases hc with hc | hc
        · rw [h1 c hc] at htr; cases htr
        · rw [hc] at herr; rw [← he]; exact herr
    · next he =>
      refine ⟨some _, none, st'.calls, rfl, by simp, h1, Or.inr ⟨_, rfl, rfl, he.symm⟩, ?_⟩
      intro e'
      constructor
      · intro h; cases h
      · rintro ⟨c, hc, htr, herr⟩
        simp only [List.mem_append, List.mem_singleton] at hc
        rcases hc with hc | hc
        · rw [h1 c hc] at htr; cases htr
        · rw [hc] at herr; rw [he] at herr; cases herr
  · refine ⟨some _, none, st'.calls, rfl, by simp, h1, Or.inl ⟨rfl, rfl⟩, ?_⟩
    intro e'
    constructor
    · intro h; cases h
    · rintro ⟨c, hc, htr, _⟩
      rw [h1 c hc] at htr; cases htr

/-- The amended C7 at three records with batch size 2 when the first send is
answered 401: the run makes two calls, both in the worker loop, the first of
which fails, and returns a response and a nil error. -/
theorem only_trailing_failure_escalates_witness :
    (scenarioEnv [row "1", row "2", row "3"] firstUnauthorized).file
        (scenarioRequest 2).CSVFilePath = .records [row "1", row "2", row "3"]
    ∧ (scenarioRequest 2).BatchSize = ((2 : ℕ) : Int) ∧ 1 ≤ 2
    ∧ (∀ record ∈ [row "1", row "2", row "3"], 4 ≤ record.length)
    ∧ (BatchSendCampaign (scenarioEnv [row "1", row "2", row "3"] firstUnauthorized)
        (scenarioRequest 2)).calls.map (fun c => (c.err.isSome, c.trailing))
        = [(true, false), (false, false)]
    ∧ ∃ response err loopCalls,
        (BatchSendCampaign (scenarioEnv [row "1", row "2", row "3"] firstUnauthorized)
          (scenarioRequest 2)).outcome = .returned response err
        ∧ (err = none ↔ response ≠ none)
        ∧ (∀ c ∈ loopCalls, c.trailing = false)
        ∧ (((BatchSendCampaign (scenarioEnv [row "1", row "2", row "3"] firstUnauthorized)
              (scenarioRequest 2)).calls = loopCalls ∧ err = none)
            ∨ ∃ c, (BatchSendCampaign (scenarioEnv [row "1", row "2", row "3"] firstUnauthorized)
                (scenarioRequest 2)).calls = loopCalls ++ [c]
                ∧ c.trailing = true ∧ err = c.err)
        ∧ ∀ e, err = some e ↔
            ∃ c ∈ (BatchSendCampaign (scenarioEnv [row "1", row "2", row "3"] firstUnauthorized)
              (scenarioRequest 2)).calls, c.trailing = true ∧ c.err = some e :=
  ⟨rfl, rfl, by decide, by decide, by decide,
    only_trailing_failure_escalates (scenarioEnv [row "1", row "2", row "3"] firstUnauthorized)
      (scenarioRequest 2) [row "1", row "2", row "3"] 2 rfl rfl (by decide) (by decide)⟩

/-- C8 at three records with batch size 2 when the first send is answered 401:
the failed batch is kept, the third record is added to it, and the second call
of `sendBatchRequest` is handed three records. -/
theorem batch_grows_after_failed_send :
    (scenarioRequest 2).BatchSize = 2
    ∧ (BatchSendCampaign (scenarioEnv [row "1", row "2", row "3"] firstUnauthorized)
        (scenarioRequest 2)).calls.map (fun c => (c.data.length, c.err.isSome, c.trailing))
        = [(2, true, false), (3, false, false)]
    ∧ (BatchSendCampaign (scenarioEnv [row "1", row "2", row "3"] firstUnauthorized)
        (scenarioRequest 2)).outcome
        = .returned (some { Message := "Messages sent successfully", NumBatches := 1 }) none := by
  decide

end Sync
